import Mathlib

/-!
Shallow embedding of the precision-approach parking display programs
(`code.py` module-level variant and the `ParkingGuideDisplay` class variant),
together with theorems settling the specification claims.

Python floats are modelled as exact rationals (ℚ), Python ints and display
column indices as ℤ (with `-1` as the "not rendered" sentinel, exactly as in
the source), color names as `String`.  `int(x)` in Python truncates toward
zero, which `pyTrunc` reproduces.
-/

set_option maxHeartbeats 1000000
set_option linter.unusedVariables false
set_option linter.unreachableTactic false
set_option linter.unusedTactic false

namespace ParkingGuide

/-- Python `int(x)` on a float: truncation toward zero. -/
def pyTrunc (x : ℚ) : ℤ := if 0 ≤ x then ⌊x⌋ else ⌈x⌉

/-! ### Global configuration constants of `code.py` -/

def TOF_READING_ERROR : ℚ := -1
def TOF_READING_NONE : ℚ := -2
def TOF_DATA_NOT_READY : ℚ := -3
def TOF_SENSOR_NOT_INIT : ℚ := -4
def FLOAT_COMPARISON_TOLERANCE : ℚ := 1/10000
def PHASE2_MIN_COLS_PER_ONE_PERCENT : ℚ := 1/10
def ROUNDING_OFFSET : ℚ := 1/2

/-! ### Percentage mapping (`code.py` lines 121–142) -/

/-- `calculate_current_tof_percentage` from `code.py`. -/
def calculate_current_tof_percentage (current_tof_reading_cm upper_range_cm_config : ℚ) : ℚ :=
  if current_tof_reading_cm < 0 then TOF_READING_ERROR
  else if current_tof_reading_cm > upper_range_cm_config then TOF_READING_ERROR
  else if upper_range_cm_config = 0 then
    (if current_tof_reading_cm > 0 then 0 else 100)
  else
    max 0 (min 100 ((upper_range_cm_config - current_tof_reading_cm) / upper_range_cm_config * 100))

/-- `calculate_derived_target_percentage` from `code.py`. -/
def calculate_derived_target_percentage (parked_distance_cm_config upper_range_cm_config : ℚ) : ℚ :=
  if ¬ (0 ≤ parked_distance_cm_config ∧ parked_distance_cm_config ≤ upper_range_cm_config) then 50
  else if upper_range_cm_config = 0 then 0
  else
    max 0 (min 100 ((upper_range_cm_config - parked_distance_cm_config) / upper_range_cm_config * 100))

/-- `ParkingGuideDisplay._calculate_current_tof_percentage`; `tofReadingError`
is the instance field `self.TOF_READING_ERROR`
(`config.get('TOF_READING_ERROR', -1.0)`). -/
def pgd_calculate_current_tof_percentage (tofReadingError : ℚ)
    (current_tof_reading_cm upper_range_cm_config : ℚ) : ℚ :=
  if current_tof_reading_cm < 0 then tofReadingError
  else if current_tof_reading_cm > upper_range_cm_config then tofReadingError
  else if upper_range_cm_config = 0 then
    (if current_tof_reading_cm > 0 then 0 else 100)
  else
    max 0 (min 100 ((upper_range_cm_config - current_tof_reading_cm) / upper_range_cm_config * 100))

/-- `ParkingGuideDisplay._calculate_derived_target_percentage`; the class takes
a possibly-`None` parked distance. -/
def pgd_calculate_derived_target_percentage (parked_distance_cm_config : Option ℚ)
    (upper_range_cm_config : ℚ) : ℚ :=
  match parked_distance_cm_config with
  | none => 50
  | some d =>
    if ¬ (0 ≤ d ∧ d ≤ upper_range_cm_config) then 50
    else if upper_range_cm_config = 0 then 0
    else max 0 (min 100 ((upper_range_cm_config - d) / upper_range_cm_config * 100))

/-! ### Pattern details data model (the dict built by `get_pattern_display_details`) -/

structure PatternDetails where
  left_display_col_start : ℤ
  left_display_col_end : ℤ
  left_color : String
  center_display_col_start : ℤ
  center_display_col_end : ℤ
  center_color : String
  right_display_col_start : ℤ
  right_display_col_end : ℤ
  right_color : String
  left_original_pct : ℚ
  center_original_pct : ℚ
  right_original_pct : ℚ
  viewport_original_start_pct : ℚ
  original_pct_per_display_col : ℚ
  phase2_view_coverage_pct : ℚ
  deriving Repr, DecidableEq

/-- The `pattern_display_configs` dict of `code.py` (`main`, lines 599–607). -/
structure DisplayConfigs where
  phase1_padding_cols : ℕ
  left_static_color : String
  center_static_color : String
  right_static_color : String
  phase2_left_static_pct : ℚ
  phase2_right_static_pct : ℚ
  phase2_cols_per_one_percent : ℚ
  deriving Repr, DecidableEq

/-- `_get_phase1_pattern_details` from `code.py` (lines 146–172). -/
def get_phase1_pattern_details (target_original_pct : ℚ) (total_display_cols : ℕ)
    (config_padding_cols : ℕ)
    (left_static_color center_static_color right_static_color : String) : PatternDetails :=
  let base : PatternDetails :=
    { left_display_col_start := -1, left_display_col_end := -1, left_color := left_static_color,
      center_display_col_start := -1, center_display_col_end := -1,
      center_color := center_static_color,
      right_display_col_start := -1, right_display_col_end := -1,
      right_color := right_static_color,
      left_original_pct := -1, center_original_pct := target_original_pct,
      right_original_pct := -1,
      viewport_original_start_pct := 0, original_pct_per_display_col := 0,
      phase2_view_coverage_pct := 0 }
  if total_display_cols = 0 then base
  else
    let center_display_col : ℤ :=
      min ((total_display_cols : ℤ) - 1)
        (max 0 (pyTrunc (target_original_pct / 100 * total_display_cols)))
    let p1 := { base with center_display_col_start := center_display_col,
                          center_display_col_end := center_display_col }
    let left_col : ℤ := center_display_col - config_padding_cols - 1
    let p2 :=
      if left_col ≥ 0 then
        { p1 with left_display_col_start := left_col, left_display_col_end := left_col,
                  left_original_pct := (left_col : ℚ) / total_display_cols * 100 }
      else p1
    let right_col : ℤ := center_display_col + config_padding_cols + 1
    if right_col < (total_display_cols : ℤ) then
      { p2 with right_display_col_start := right_col, right_display_col_end := right_col,
                right_original_pct := (right_col : ℚ) / total_display_cols * 100 }
    else p2

/-- `_get_phase2_static_marker_details` from `code.py` (lines 174–219). -/
def get_phase2_static_marker_details (static_marker_original_pct : ℚ)
    (target_original_pct_for_zoom_center : ℚ) (total_display_cols : ℕ)
    (phase2_cols_per_one_percent_config : ℚ)
    (viewport_start_original_pct phase2_view_coverage_pct : ℚ)
    (is_left_marker is_right_marker : Bool)
    (center_marker_details : Option (ℤ × ℤ)) : ℤ × ℤ :=
  if total_display_cols = 0 ∨ phase2_cols_per_one_percent_config ≤ 0 then (-1, -1)
  else
    let original_pct_per_display_col := 1 / phase2_cols_per_one_percent_config
    let num_display_cols_for_static_marker : ℤ :=
      max 1 (pyTrunc (phase2_cols_per_one_percent_config * 1))
    if static_marker_original_pct ≥ viewport_start_original_pct - FLOAT_COMPARISON_TOLERANCE ∧
       static_marker_original_pct <
         viewport_start_original_pct + phase2_view_coverage_pct + FLOAT_COMPARISON_TOLERANCE then
      let offset_from_viewport_start_pct :=
        static_marker_original_pct - viewport_start_original_pct
      let raw : ℤ × ℤ :=
        if is_left_marker then
          let e := pyTrunc (offset_from_viewport_start_pct / original_pct_per_display_col)
          (e - num_display_cols_for_static_marker + 1, e)
        else if is_right_marker then
          let s := pyTrunc (offset_from_viewport_start_pct / original_pct_per_display_col)
          (s, s + num_display_cols_for_static_marker - 1)
        else
          let s := pyTrunc (offset_from_viewport_start_pct / original_pct_per_display_col -
                    (num_display_cols_for_static_marker : ℚ) / 2 + ROUNDING_OFFSET)
          (s, s + num_display_cols_for_static_marker - 1)
      let s1 := max 0 raw.1
      let e1 := min ((total_display_cols : ℤ) - 1) raw.2
      if s1 > e1 then (-1, -1)
      else
        match center_marker_details with
        | none => (s1, e1)
        | some (cs, ce) =>
          if ¬ (is_left_marker ∨ is_right_marker) then (s1, e1)
          else if cs ≠ -1 ∧ s1 ≤ ce ∧ e1 ≥ cs then (-1, -1)
          else (s1, e1)
    else (-1, -1)

/-- `get_pattern_display_details` from `code.py` (lines 222–285). -/
def get_pattern_display_details (current_slider_original_pct : ℚ) (is_phase2_active : Bool)
    (derived_target_pct : ℚ) (total_display_cols : ℕ)
    (display_configs : DisplayConfigs) : PatternDetails :=
  let base : PatternDetails :=
    { left_display_col_start := -1, left_display_col_end := -1,
      left_color := display_configs.left_static_color,
      center_display_col_start := -1, center_display_col_end := -1,
      center_color := display_configs.center_static_color,
      right_display_col_start := -1, right_display_col_end := -1,
      right_color := display_configs.right_static_color,
      left_original_pct := -1, center_original_pct := derived_target_pct,
      right_original_pct := -1,
      viewport_original_start_pct := 0, original_pct_per_display_col := 0,
      phase2_view_coverage_pct := 0 }
  if total_display_cols = 0 then base
  else if is_phase2_active then
    let effective_cols_per_original_percent :=
      max PHASE2_MIN_COLS_PER_ONE_PERCENT display_configs.phase2_cols_per_one_percent
    let original_pct_per_display_col := 1 / effective_cols_per_original_percent
    let phase2_view_coverage_pct := (total_display_cols : ℚ) * original_pct_per_display_col
    let viewport_original_start_pct :=
      max 0 (derived_target_pct - phase2_view_coverage_pct / 2)
    let c := get_phase2_static_marker_details derived_target_pct derived_target_pct
      total_display_cols effective_cols_per_original_percent
      viewport_original_start_pct phase2_view_coverage_pct false false none
    let l := get_phase2_static_marker_details display_configs.phase2_left_static_pct
      derived_target_pct total_display_cols effective_cols_per_original_percent
      viewport_original_start_pct phase2_view_coverage_pct true false (some c)
    let r := get_phase2_static_marker_details display_configs.phase2_right_static_pct
      derived_target_pct total_display_cols effective_cols_per_original_percent
      viewport_original_start_pct phase2_view_coverage_pct false true (some c)
    { base with
      viewport_original_start_pct := viewport_original_start_pct,
      original_pct_per_display_col := original_pct_per_display_col,
      phase2_view_coverage_pct := phase2_view_coverage_pct,
      center_display_col_start := c.1, center_display_col_end := c.2,
      left_original_pct := display_configs.phase2_left_static_pct,
      left_display_col_start := l.1, left_display_col_end := l.2,
      right_original_pct := display_configs.phase2_right_static_pct,
      right_display_col_start := r.1, right_display_col_end := r.2 }
  else
    let p1 := get_phase1_pattern_details derived_target_pct total_display_cols
      display_configs.phase1_padding_cols display_configs.left_static_color
      display_configs.center_static_color display_configs.right_static_color
    { p1 with original_pct_per_display_col := 100 / (total_display_cols : ℚ) }

/-! ### The `ParkingGuideDisplay` class variant (`parking_guide_display.py`) -/

/-- The `configs` dict handed to `ParkingGuideDisplay.__init__`, restricted to
the keys the display logic reads; `cfg.get(key, default)` accesses are modelled
by fields initialised by the caller (the theorems fix the defaults where the
source does). -/
structure ClassConfigs where
  upper_range_cm : ℚ
  tof_reading_error : ℚ
  zoom_transition_threshold_percent : ℚ
  left_static_color : String
  center_static_color : String
  right_static_color : String
  phase1_padding_cols : ℕ
  phase2_cols_per_one_percent : ℚ
  phase2_min_cols_per_one_percent : ℚ
  phase2_static_marker_offset_pct : ℚ
  float_comparison_tolerance : ℚ
  rounding_offset : ℚ
  slider_start_color : String
  slider_end_color_phase1 : String
  slider_color_change_point_target_pct : ℚ
  slider_color_after_1st_static_zoomed : String
  precise_indicator_color : String
  phase2_allow_slider_overwrite_target : Bool
  phase2_show_precise_indicator : Bool
  deriving Repr, DecidableEq

/-- `ParkingGuideDisplay._get_phase2_static_marker_details` (lines 297–331). -/
def pgd_get_phase2_static_marker_details (cfg : ClassConfigs) (total_cols : ℕ)
    (static_marker_pct target_pct : ℚ) (cols_per_pct : ℚ)
    (viewport_start_pct view_coverage_pct : ℚ)
    (is_left is_right : Bool) (center_details : Option (ℤ × ℤ)) : ℤ × ℤ :=
  if total_cols = 0 ∨ cols_per_pct ≤ 0 then (-1, -1)
  else
    let pct_per_col := 1 / cols_per_pct
    let num_cols_for_marker : ℤ := max 1 (pyTrunc (cols_per_pct * 1))
    let tolerance := cfg.float_comparison_tolerance
    if viewport_start_pct - tolerance ≤ static_marker_pct ∧
       static_marker_pct < viewport_start_pct + view_coverage_pct + tolerance then
      let offset_pct := static_marker_pct - viewport_start_pct
      let raw : ℤ × ℤ :=
        if is_left then
          let e := pyTrunc (offset_pct / pct_per_col)
          (e - num_cols_for_marker + 1, e)
        else if is_right then
          let s := pyTrunc (offset_pct / pct_per_col)
          (s, s + num_cols_for_marker - 1)
        else
          let s := pyTrunc (offset_pct / pct_per_col -
                    (num_cols_for_marker : ℚ) / 2 + cfg.rounding_offset)
          (s, s + num_cols_for_marker - 1)
      let s1 := max 0 raw.1
      let e1 := min ((total_cols : ℤ) - 1) raw.2
      if s1 > e1 then (-1, -1)
      else
        match center_details with
        | none => (s1, e1)
        | some (cs, ce) =>
          if cs ≠ -1 ∧ (is_left ∨ is_right) ∧ s1 ≤ ce ∧ e1 ≥ cs then (-1, -1)
          else (s1, e1)
    else (-1, -1)

/-- `ParkingGuideDisplay._get_pattern_display_details` (lines 235–295). -/
def pgd_get_pattern_display_details (cfg : ClassConfigs) (total_cols : ℕ)
    (current_slider_original_pct : ℚ) (is_phase2_active : Bool)
    (derived_target_pct : ℚ) : PatternDetails :=
  let base : PatternDetails :=
    { left_display_col_start := -1, left_display_col_end := -1,
      left_color := cfg.left_static_color,
      center_display_col_start := -1, center_display_col_end := -1,
      center_color := cfg.center_static_color,
      right_display_col_start := -1, right_display_col_end := -1,
      right_color := cfg.right_static_color,
      left_original_pct := -1, center_original_pct := derived_target_pct,
      right_original_pct := -1,
      viewport_original_start_pct := 0, original_pct_per_display_col := 0,
      phase2_view_coverage_pct := 0 }
  if total_cols = 0 then base
  else if is_phase2_active then
    let effective_cols_per_pct :=
      max cfg.phase2_min_cols_per_one_percent cfg.phase2_cols_per_one_percent
    let pct_per_col := 1 / effective_cols_per_pct
    let view_coverage_pct := (total_cols : ℚ) * pct_per_col
    let viewport_start_pct := max 0 (derived_target_pct - view_coverage_pct / 2)
    let c := pgd_get_phase2_static_marker_details cfg total_cols derived_target_pct
      derived_target_pct effective_cols_per_pct viewport_start_pct view_coverage_pct
      false false none
    let offset_pct := cfg.phase2_static_marker_offset_pct
    let left_pct := derived_target_pct - offset_pct
    let right_pct := derived_target_pct + offset_pct
    let l := pgd_get_phase2_static_marker_details cfg total_cols left_pct
      derived_target_pct effective_cols_per_pct viewport_start_pct view_coverage_pct
      true false (some c)
    let r := pgd_get_phase2_static_marker_details cfg total_cols right_pct
      derived_target_pct effective_cols_per_pct viewport_start_pct view_coverage_pct
      false true (some c)
    { base with
      viewport_original_start_pct := viewport_start_pct,
      original_pct_per_display_col := pct_per_col,
      phase2_view_coverage_pct := view_coverage_pct,
      center_display_col_start := c.1, center_display_col_end := c.2,
      left_original_pct := left_pct,
      left_display_col_start := l.1, left_display_col_end := l.2,
      right_original_pct := right_pct,
      right_display_col_start := r.1, right_display_col_end := r.2 }
  else
    let center_col : ℤ :=
      min ((total_cols : ℤ) - 1) (max 0 (pyTrunc (derived_target_pct / 100 * total_cols)))
    let p1 := { base with center_display_col_start := center_col,
                          center_display_col_end := center_col }
    let left_col : ℤ := center_col - cfg.phase1_padding_cols - 1
    let p2 :=
      if left_col ≥ 0 then
        { p1 with left_display_col_start := left_col, left_display_col_end := left_col,
                  left_original_pct := (left_col : ℚ) / total_cols * 100 }
      else p1
    let right_col : ℤ := center_col + cfg.phase1_padding_cols + 1
    let p3 :=
      if right_col < (total_cols : ℤ) then
        { p2 with right_display_col_start := right_col, right_display_col_end := right_col,
                  right_original_pct := (right_col : ℚ) / total_cols * 100 }
      else p2
    { p3 with original_pct_per_display_col := 100 / (total_cols : ℚ) }

/-! ### Slider color policy (`code.py` lines 288–342) -/

/-- The `render_configs` dict of `code.py` (`main`, lines 609–619). -/
structure RenderConfigs where
  slider_start_color : String
  slider_end_color_phase1 : String
  slider_color_change_point_target_pct : ℚ
  recolor_between_static_behavior : String
  slider_color_after_1st_static_zoomed : String
  precise_indicator_color : String
  phase2_allow_slider_overwrite_target : Bool
  phase2_show_precise_indicator : Bool
  zoom_transition_threshold_percent : ℚ
  deriving Repr, DecidableEq

/-- `calculate_phase1_slider_color_change_threshold_original_pct` from `code.py`.
The config value is numeric here, so the source's `isinstance(..., str)` test is
always false. -/
def calculate_phase1_slider_color_change_threshold_original_pct
    (center_marker_original_pct : ℚ) (slider_color_change_point_target_pct_config : ℚ)
    (derived_target_pct_overall : ℚ) : ℚ :=
  if center_marker_original_pct ≠ -1 then
    max 0 (slider_color_change_point_target_pct_config / 100 * center_marker_original_pct)
  else 50 / 100 * derived_target_pct_overall

/-- `get_current_progress_color` from `code.py` (lines 299–321). -/
def get_current_progress_color (current_slider_original_pct : ℚ) (is_phase2_active : Bool)
    (phase1_color_change_thresh_pct : ℚ) (pattern_details : PatternDetails)
    (render_configs : RenderConfigs) : String :=
  if is_phase2_active then
    let phase2_initial_color :=
      if current_slider_original_pct ≥ phase1_color_change_thresh_pct then
        render_configs.slider_end_color_phase1
      else render_configs.slider_start_color
    let first_static_original_pct_phase2 := pattern_details.left_original_pct
    if first_static_original_pct_phase2 ≠ -1 ∧
       current_slider_original_pct > first_static_original_pct_phase2 then
      render_configs.slider_color_after_1st_static_zoomed
    else phase2_initial_color
  else
    if current_slider_original_pct > phase1_color_change_thresh_pct then
      render_configs.slider_end_color_phase1
    else render_configs.slider_start_color

/-- `_determine_slider_fill_color` from `code.py` (lines 323–342). -/
def determine_slider_fill_color (current_slider_original_pct : ℚ)
    (original_pct_for_this_col_start : ℚ) (is_phase2_active : Bool)
    (phase1_color_change_thresh_pct : ℚ) (pattern_details : PatternDetails)
    (render_configs : RenderConfigs) : String :=
  let slider_tip_color := get_current_progress_color current_slider_original_pct
    is_phase2_active phase1_color_change_thresh_pct pattern_details render_configs
  if is_phase2_active then slider_tip_color
  else if original_pct_for_this_col_start ≥ phase1_color_change_thresh_pct then
    render_configs.slider_end_color_phase1
  else render_configs.slider_start_color

/-- `ParkingGuideDisplay._calculate_phase1_slider_color_change_threshold`. -/
def pgd_calculate_phase1_slider_color_change_threshold (cfg : ClassConfigs)
    (center_marker_pct derived_target_pct : ℚ) : ℚ :=
  if center_marker_pct ≠ -1 then
    max 0 (cfg.slider_color_change_point_target_pct / 100 * center_marker_pct)
  else 50 / 100 * derived_target_pct

/-- `ParkingGuideDisplay._get_current_progress_color` (lines 442–451). -/
def pgd_get_current_progress_color (cfg : ClassConfigs) (current_slider_pct : ℚ)
    (is_phase2 : Bool) (p1_color_thresh_pct : ℚ) (pattern_details : PatternDetails) : String :=
  if is_phase2 then
    let initial_color :=
      if current_slider_pct ≥ p1_color_thresh_pct then cfg.slider_end_color_phase1
      else cfg.slider_start_color
    let first_static_pct := pattern_details.left_original_pct
    if first_static_pct ≠ -1 ∧ current_slider_pct > first_static_pct then
      cfg.slider_color_after_1st_static_zoomed
    else initial_color
  else
    if current_slider_pct > p1_color_thresh_pct then cfg.slider_end_color_phase1
    else cfg.slider_start_color

/-- `ParkingGuideDisplay._get_slider_fill_color` (lines 453–458). -/
def pgd_get_slider_fill_color (cfg : ClassConfigs) (current_slider_pct col_start_pct : ℚ)
    (is_phase2 : Bool) (p1_color_thresh_pct : ℚ) (pattern_details : PatternDetails) : String :=
  if is_phase2 then
    pgd_get_current_progress_color cfg current_slider_pct is_phase2 p1_color_thresh_pct
      pattern_details
  else if col_start_pct ≥ p1_color_thresh_pct then cfg.slider_end_color_phase1
  else cfg.slider_start_color

/-! ### Frame rendering -/

/-- One marker pass of the marker-application loop in `render_display`
(`code.py` lines 417–431): the marker is applied only when both endpoints
differ from the `-1` sentinel. -/
def apply_marker (is_phase2_active allow_overwrite : Bool) (frame : List String)
    (marker_name : String) (start_col end_col : ℤ) (color : String) : List String :=
  if start_col ≠ -1 ∧ end_col ≠ -1 then
    frame.mapIdx (fun i c =>
      if start_col ≤ (i : ℤ) ∧ (i : ℤ) ≤ end_col then
        if marker_name = "center" ∧ is_phase2_active ∧ allow_overwrite then
          (if c = "off" then color else c)
        else color
      else c)
  else frame

/-- One marker pass of `_render_matrix_display` (`parking_guide_display.py`
lines 362–374): only `start != -1` is checked. -/
def pgd_apply_marker (is_phase2 allow_overwrite : Bool) (frame : List String)
    (marker_name : String) (start_col end_col : ℤ) (color : String) : List String :=
  if start_col ≠ -1 then
    frame.mapIdx (fun i c =>
      if start_col ≤ (i : ℤ) ∧ (i : ℤ) ≤ end_col then
        if marker_name = "center" ∧ is_phase2 ∧ allow_overwrite then
          (if c = "off" then color else c)
        else color
      else c)
  else frame

/-- The pure frame computed by `render_display` in `code.py` (lines 345–443):
the `display_column_colors` array right before it is written to the matrices. -/
def render_display (current_slider_original_pct derived_target_pct : ℚ)
    (total_display_cols : ℕ) (pattern_details : PatternDetails)
    (render_configs : RenderConfigs) : List String :=
  if total_display_cols = 0 then []
  else
    let is_phase2_active :=
      current_slider_original_pct ≥ render_configs.zoom_transition_threshold_percent
    let viewport_original_start_pct := pattern_details.viewport_original_start_pct
    let original_pct_per_display_col := pattern_details.original_pct_per_display_col
    let phase2_view_coverage_pct := pattern_details.phase2_view_coverage_pct
    let phase1_color_change_threshold_original_pct :=
      calculate_phase1_slider_color_change_threshold_original_pct
        pattern_details.center_original_pct
        render_configs.slider_color_change_point_target_pct derived_target_pct
    let base := (List.range total_display_cols).map (fun (display_col_idx : ℕ) =>
      let original_pct_for_this_col_start :=
        viewport_original_start_pct + (display_col_idx : ℚ) * original_pct_per_display_col
      let center_original_pct_of_display_col :=
        original_pct_for_this_col_start + original_pct_per_display_col / 2
      if is_phase2_active ∧
         (center_original_pct_of_display_col <
            viewport_original_start_pct - FLOAT_COMPARISON_TOLERANCE ∨
          center_original_pct_of_display_col >
            viewport_original_start_pct + phase2_view_coverage_pct +
              FLOAT_COMPARISON_TOLERANCE) then
        "off"
      else
        let is_filled_by_slider :=
          if is_phase2_active then
            current_slider_original_pct > viewport_original_start_pct ∧
            original_pct_per_display_col > 0 ∧
            (display_col_idx : ℤ) <
              pyTrunc ((current_slider_original_pct - viewport_original_start_pct) /
                original_pct_per_display_col)
          else original_pct_for_this_col_start < current_slider_original_pct
        if is_filled_by_slider then
          let c := determine_slider_fill_color current_slider_original_pct
            original_pct_for_this_col_start is_phase2_active
            phase1_color_change_threshold_original_pct pattern_details render_configs
          if render_configs.recolor_between_static_behavior ≠ "use_slider_color" ∧
             ((pattern_details.left_display_col_start ≠ -1 ∧
               (display_col_idx : ℤ) > pattern_details.left_display_col_end ∧
               pattern_details.center_display_col_start ≠ -1 ∧
               (display_col_idx : ℤ) < pattern_details.center_display_col_start) ∨
              (pattern_details.right_display_col_start ≠ -1 ∧
               pattern_details.center_display_col_start ≠ -1 ∧
               (display_col_idx : ℤ) > pattern_details.center_display_col_end ∧
               (display_col_idx : ℤ) < pattern_details.right_display_col_start)) then
            render_configs.recolor_between_static_behavior
          else c
        else "off")
    let f1 := apply_marker is_phase2_active
      render_configs.phase2_allow_slider_overwrite_target base "left"
      pattern_details.left_display_col_start pattern_details.left_display_col_end
      pattern_details.left_color
    let f2 := apply_marker is_phase2_active
      render_configs.phase2_allow_slider_overwrite_target f1 "right"
      pattern_details.right_display_col_start pattern_details.right_display_col_end
      pattern_details.right_color
    let f3 := apply_marker is_phase2_active
      render_configs.phase2_allow_slider_overwrite_target f2 "center"
      pattern_details.center_display_col_start pattern_details.center_display_col_end
      pattern_details.center_color
    if is_phase2_active ∧ render_configs.phase2_show_precise_indicator then
      if current_slider_original_pct ≥
           viewport_original_start_pct - FLOAT_COMPARISON_TOLERANCE ∧
         current_slider_original_pct <
           viewport_original_start_pct + phase2_view_coverage_pct +
             FLOAT_COMPARISON_TOLERANCE ∧
         original_pct_per_display_col > 0 then
        let precise_indicator_display_col_idx :=
          max 0 (min ((total_display_cols : ℤ) - 1)
            (pyTrunc ((current_slider_original_pct - viewport_original_start_pct) /
              original_pct_per_display_col)))
        f3.set precise_indicator_display_col_idx.toNat
          render_configs.precise_indicator_color
      else f3
    else f3

/-- The pure frame computed by `ParkingGuideDisplay._render_matrix_display`
(lines 335–382): the `colors` array right before it is drawn to hardware. -/
def pgd_render_matrix_display (cfg : ClassConfigs) (total_cols : ℕ)
    (current_slider_pct derived_target_pct : ℚ)
    (pattern_details : PatternDetails) : List String :=
  if total_cols = 0 then []
  else
    let is_phase2 := current_slider_pct ≥ cfg.zoom_transition_threshold_percent
    let p1_color_thresh_pct := pgd_calculate_phase1_slider_color_change_threshold cfg
      pattern_details.center_original_pct derived_target_pct
    let base := (List.range total_cols).map (fun (idx : ℕ) =>
      let col_start_pct := pattern_details.viewport_original_start_pct +
        (idx : ℚ) * pattern_details.original_pct_per_display_col
      let is_filled :=
        if is_phase2 then
          current_slider_pct > pattern_details.viewport_original_start_pct ∧
          pattern_details.original_pct_per_display_col > 0 ∧
          (idx : ℤ) <
            pyTrunc ((current_slider_pct - pattern_details.viewport_original_start_pct) /
              pattern_details.original_pct_per_display_col)
        else col_start_pct < current_slider_pct
      if is_filled then
        pgd_get_slider_fill_color cfg current_slider_pct col_start_pct is_phase2
          p1_color_thresh_pct pattern_details
      else "off")
    let f1 := pgd_apply_marker is_phase2 cfg.phase2_allow_slider_overwrite_target base
      "left" pattern_details.left_display_col_start pattern_details.left_display_col_end
      pattern_details.left_color
    let f2 := pgd_apply_marker is_phase2 cfg.phase2_allow_slider_overwrite_target f1
      "right" pattern_details.right_display_col_start pattern_details.right_display_col_end
      pattern_details.right_color
    let f3 := pgd_apply_marker is_phase2 cfg.phase2_allow_slider_overwrite_target f2
      "center" pattern_details.center_display_col_start
      pattern_details.center_display_col_end pattern_details.center_color
    if is_phase2 ∧ cfg.phase2_show_precise_indicator then
      if pattern_details.original_pct_per_display_col > 0 then
        let indicator_idx :=
          pyTrunc ((current_slider_pct - pattern_details.viewport_original_start_pct) /
            pattern_details.original_pct_per_display_col)
        if 0 ≤ indicator_idx ∧ indicator_idx < (total_cols : ℤ) then
          f3.set indicator_idx.toNat cfg.precise_indicator_color
        else f3
      else f3
    else f3

/-! ### Column sink and NeoPixel sink models -/

/-- Writing a frame to the column sink column by column, as the final loop of
`render_display` does (`for display_col_idx in range(total): set_single_column
…`): position `k` of the previous sink contents is overwritten with column `k`
of the frame, for every `k` below the frame length. -/
def writeCols : ℕ → List String → List String → List String
  | 0, prev, _ => prev
  | k + 1, prev, frame => (writeCols k prev frame).set k (frame.getD k "off")

/-- Flush one frame to the sink, starting from whatever the previous render
left there. -/
def flushFrameToSink (prev frame : List String) : List String :=
  writeCols frame.length prev frame

/-- `NEOPIXEL_COLOR_MAP.get(name, (0, 0, 0))` from both sources. -/
def neopixelColor (name : String) : ℕ × ℕ × ℕ :=
  if name = "off" then (0, 0, 0)
  else if name = "red" then (255, 0, 0)
  else if name = "green" then (0, 255, 0)
  else if name = "yellow" then (255, 45, 0)
  else if name = "blue" then (0, 0, 255)
  else (0, 0, 0)

/-! ### One tick of the `code.py` main loop (lines 629–675) -/

/-- The display-relevant outcome of one iteration of `main`'s `while True`
loop in `code.py`, given the distance value returned by
`fetch_tof_sensor_distance_cm` (a centimeter reading or one of the negative
sentinels).  Returns `none` when `TOTAL_DISPLAY_COLUMNS == 0` (the loop only
prints then); otherwise the RGB written to the NeoPixel strips and the frame
written to the matrices. -/
def main_tick (current_tof_reading_cm upper_range_cm : ℚ)
    (derived_target_pct_original : ℚ) (total_display_columns : ℕ)
    (pattern_display_configs : DisplayConfigs) (render_configs : RenderConfigs) :
    Option ((ℕ × ℕ × ℕ) × List String) :=
  let current_progress_percent :=
    if current_tof_reading_cm > TOF_READING_ERROR then
      calculate_current_tof_percentage current_tof_reading_cm upper_range_cm
    else TOF_READING_ERROR
  let tof_is_error_or_out_of_range := current_progress_percent ≤ TOF_READING_ERROR
  let effective_progress_for_pattern :=
    if tof_is_error_or_out_of_range then 0 else current_progress_percent
  if total_display_columns = 0 then none
  else
    let is_phase2_active :=
      effective_progress_for_pattern ≥ render_configs.zoom_transition_threshold_percent
    let pattern_details := get_pattern_display_details effective_progress_for_pattern
      is_phase2_active derived_target_pct_original total_display_columns
      pattern_display_configs
    let neopixel_rgb :=
      if tof_is_error_or_out_of_range then neopixelColor "blue"
      else
        let phase1_color_change_thresh :=
          calculate_phase1_slider_color_change_threshold_original_pct
            pattern_details.center_original_pct
            render_configs.slider_color_change_point_target_pct
            derived_target_pct_original
        neopixelColor (get_current_progress_color effective_progress_for_pattern
          is_phase2_active phase1_color_change_thresh pattern_details render_configs)
    some (neopixel_rgb,
      render_display effective_progress_for_pattern derived_target_pct_original
        total_display_columns pattern_details render_configs)

/-! ### `ParkingGuideDisplay.update` (lines 60–87) and its NeoPixel path -/

/-- `ParkingGuideDisplay._update_neopixel_strips` (lines 394–403): the RGB
written to the strips. -/
def pgd_update_neopixel_strips (cfg : ClassConfigs) (current_slider_pct : ℚ)
    (is_phase2 is_error : Bool) (pattern_details : PatternDetails)
    (derived_target_pct : ℚ) : ℕ × ℕ × ℕ :=
  if is_error then neopixelColor "blue"
  else
    let p1_color_thresh := pgd_calculate_phase1_slider_color_change_threshold cfg
      pattern_details.center_original_pct derived_target_pct
    neopixelColor (pgd_get_current_progress_color cfg current_slider_pct is_phase2
      p1_color_thresh pattern_details)

structure UpdateResult where
  indicator_rgb : ℕ × ℕ × ℕ
  effective_progress : ℚ
  is_phase2_active : Bool
  pattern : PatternDetails
  frame : Option (List String)
  deriving Repr, DecidableEq

/-- `ParkingGuideDisplay.update` (lines 60–87): the `None` coercion, the
percentage computations, the phase decision, the pattern computation, the
NeoPixel write and (when columns exist) the matrix frame. -/
def pgd_update (cfg : ClassConfigs) (total_cols : ℕ)
    (current_distance_cm target_distance_cm : Option ℚ) : UpdateResult :=
  let current : ℚ :=
    match current_distance_cm with
    | none => cfg.tof_reading_error
    | some v => v
  let upper_range := cfg.upper_range_cm
  let current_progress_percent :=
    pgd_calculate_current_tof_percentage cfg.tof_reading_error current upper_range
  let derived_target_pct :=
    pgd_calculate_derived_target_percentage target_distance_cm upper_range
  let tof_is_error := current_progress_percent ≤ cfg.tof_reading_error
  let effective_progress := if tof_is_error then 0 else current_progress_percent
  let is_phase2_active :=
    effective_progress ≥ cfg.zoom_transition_threshold_percent
  let pattern_details := pgd_get_pattern_display_details cfg total_cols
    effective_progress is_phase2_active derived_target_pct
  { indicator_rgb := pgd_update_neopixel_strips cfg effective_progress
      is_phase2_active tof_is_error pattern_details derived_target_pct,
    effective_progress := effective_progress,
    is_phase2_active := is_phase2_active,
    pattern := pattern_details,
    frame :=
      if 0 < total_cols then
        some (pgd_render_matrix_display cfg total_cols effective_progress
          derived_target_pct pattern_details)
      else none }

/-! ## Theorems for the claims -/

/-- C1: for `R > 0` and `0 ≤ d ≤ R` the percentage mapper returns
`clamp(((R − d) / R) * 100, 0, 100)`, which equals `100*(R-d)/R`; for `d < 0`
or `d > R` it returns the error sentinel; for `R = 0` it returns `100` when
`d = 0` and the error sentinel otherwise (a reading `d > 0` with `R = 0` falls
under `d > R`). -/
theorem C1_percentage_mapper (d R : ℚ) :
    (0 < R → 0 ≤ d → d ≤ R →
      calculate_current_tof_percentage d R = max 0 (min 100 ((R - d) / R * 100)) ∧
      calculate_current_tof_percentage d R = 100 * (R - d) / R) ∧
    (d < 0 ∨ d > R → calculate_current_tof_percentage d R = TOF_READING_ERROR) ∧
    (R = 0 →
      (d = 0 → calculate_current_tof_percentage d R = 100) ∧
      (d ≠ 0 → calculate_current_tof_percentage d R = TOF_READING_ERROR)) := by
  refine ⟨fun hR hd0 hdR => ?_, fun h => ?_, fun hR0 => ⟨fun hd => ?_, fun hd => ?_⟩⟩
  · have h1 : ¬ d < 0 := not_lt.mpr hd0
    have h2 : ¬ d > R := not_lt.mpr hdR
    have h3 : R ≠ 0 := ne_of_gt hR
    have hx0 : 0 ≤ (R - d) / R * 100 := by
      have : 0 ≤ (R - d) / R := div_nonneg (by linarith) (le_of_lt hR)
      linarith
    have hx1 : (R - d) / R * 100 ≤ 100 := by
      have : (R - d) / R ≤ 1 := by
        rw [div_le_one hR]; linarith
      linarith
    constructor
    · simp [calculate_current_tof_percentage, h1, h2, h3]
    · simp only [calculate_current_tof_percentage, if_neg h1, if_neg h2, if_neg h3]
      rw [min_eq_right hx1, max_eq_right hx0]
      ring
  · rcases h with h | h
    · simp [calculate_current_tof_percentage, h]
    · by_cases hd : d < 0 <;> simp [calculate_current_tof_percentage, hd, h]
  · subst hR0 hd
    norm_num [calculate_current_tof_percentage]
  · rcases lt_or_gt_of_ne hd with h | h
    · simp [calculate_current_tof_percentage, h]
    · subst hR0
      simp [calculate_current_tof_percentage, h, not_lt.mpr (le_of_lt h), TOF_READING_ERROR]

/-- Witness for C1 at the concrete inputs `d = 40, R = 190` (in range) and
`d = -5, R = 190` (error). -/
theorem C1_percentage_mapper_witness :
    calculate_current_tof_percentage 40 190 = 100 * (190 - 40) / 190 ∧
    calculate_current_tof_percentage (-5) 190 = TOF_READING_ERROR :=
  ⟨((C1_percentage_mapper 40 190).1 (by norm_num) (by norm_num) (by norm_num)).2,
   (C1_percentage_mapper (-5) 190).2.1 (Or.inl (by norm_num))⟩

/-- C7: an out-of-bounds target distance (`t < 0` or `t > R`) makes the
derived-target computation return exactly `50` (in both script variants), and
an in-bounds target with `R > 0` yields the clamped formula value. -/
theorem C7_derived_target_default (t R : ℚ) :
    ((t < 0 ∨ t > R) → calculate_derived_target_percentage t R = 50) ∧
    (0 < R → 0 ≤ t → t ≤ R →
      calculate_derived_target_percentage t R = max 0 (min 100 ((R - t) / R * 100))) ∧
    ((t < 0 ∨ t > R) → pgd_calculate_derived_target_percentage (some t) R = 50) := by
  refine ⟨fun h => ?_, fun hR h0 h1 => ?_, fun h => ?_⟩
  · have : ¬ (0 ≤ t ∧ t ≤ R) := by
      rcases h with h | h
      · exact fun hc => absurd hc.1 (not_le.mpr h)
      · exact fun hc => absurd hc.2 (not_le.mpr h)
    simp [calculate_derived_target_percentage, this]
  · have hc : 0 ≤ t ∧ t ≤ R := ⟨h0, h1⟩
    simp [calculate_derived_target_percentage, hc, ne_of_gt hR]
  · have : ¬ (0 ≤ t ∧ t ≤ R) := by
      rcases h with h | h
      · exact fun hc => absurd hc.1 (not_le.mpr h)
      · exact fun hc => absurd hc.2 (not_le.mpr h)
    simp [pgd_calculate_derived_target_percentage, this]

/-- Witness for C7 at `t = 250, R = 190` (out of bounds, both variants) and
`t = 25, R = 190` (in bounds). -/
theorem C7_derived_target_default_witness :
    calculate_derived_target_percentage 250 190 = 50 ∧
    calculate_derived_target_percentage 25 190 =
      max 0 (min 100 ((190 - 25) / 190 * 100)) ∧
    pgd_calculate_derived_target_percentage (some 250) 190 = 50 :=
  ⟨(C7_derived_target_default 250 190).1 (Or.inr (by norm_num)),
   (C7_derived_target_default 25 190).2.1 (by norm_num) (by norm_num) (by norm_num),
   (C7_derived_target_default 250 190).2.2 (Or.inr (by norm_num))⟩

/-- C2: in the zoomed phase, with `total_columns > 0` and a target percentage
in `[0, 100]`, the viewport satisfies `pct_per_col = 1 / max(minimum_density,
cols_per_percent)`, `coverage_pct = total_columns * pct_per_col`, `start_pct =
max(0, target_pct − coverage_pct/2)`, and consequently
`start_pct ≤ target_pct ≤ start_pct + coverage_pct`. -/
theorem C2_zoomed_viewport (p target : ℚ) (n : ℕ) (cfg : DisplayConfigs)
    (hn : 0 < n) (h0 : 0 ≤ target) (h100 : target ≤ 100) :
    (get_pattern_display_details p true target n cfg).original_pct_per_display_col =
      1 / max PHASE2_MIN_COLS_PER_ONE_PERCENT cfg.phase2_cols_per_one_percent ∧
    (get_pattern_display_details p true target n cfg).phase2_view_coverage_pct =
      (n : ℚ) *
        (get_pattern_display_details p true target n cfg).original_pct_per_display_col ∧
    (get_pattern_display_details p true target n cfg).viewport_original_start_pct =
      max 0 (target -
        (get_pattern_display_details p true target n cfg).phase2_view_coverage_pct / 2) ∧
    (get_pattern_display_details p true target n cfg).viewport_original_start_pct ≤
      target ∧
    target ≤ (get_pattern_display_details p true target n cfg).viewport_original_start_pct +
      (get_pattern_display_details p true target n cfg).phase2_view_coverage_pct := by
  have hn' : n ≠ 0 := hn.ne'
  have hm : (0:ℚ) < max PHASE2_MIN_COLS_PER_ONE_PERCENT cfg.phase2_cols_per_one_percent :=
    lt_of_lt_of_le (by norm_num [PHASE2_MIN_COLS_PER_ONE_PERCENT]) (le_max_left _ _)
  have hcov : (0:ℚ) ≤ (n : ℚ) *
      (1 / max PHASE2_MIN_COLS_PER_ONE_PERCENT cfg.phase2_cols_per_one_percent) := by
    positivity
  simp only [get_pattern_display_details, if_neg hn', if_true]
  refine ⟨trivial, trivial, trivial, ?_, ?_⟩
  · exact max_le h0 (by linarith)
  · have h := le_max_right (0:ℚ)
      (target - (n : ℚ) *
        (1 / max PHASE2_MIN_COLS_PER_ONE_PERCENT cfg.phase2_cols_per_one_percent) / 2)
    linarith

/-- Witness for C2 at `p = 80`, `target = 1650/19`, `n = 32` and the
configuration of `code.py`. -/
theorem C2_zoomed_viewport_witness :
    (get_pattern_display_details 80 true (1650/19) 32
        ⟨2, "green", "off", "green", 169/2, 181/2, 2⟩).original_pct_per_display_col =
      1 / max PHASE2_MIN_COLS_PER_ONE_PERCENT (2 : ℚ) ∧
    (get_pattern_display_details 80 true (1650/19) 32
        ⟨2, "green", "off", "green", 169/2, 181/2, 2⟩).phase2_view_coverage_pct =
      (32 : ℚ) * (get_pattern_display_details 80 true (1650/19) 32
        ⟨2, "green", "off", "green", 169/2, 181/2, 2⟩).original_pct_per_display_col ∧
    (get_pattern_display_details 80 true (1650/19) 32
        ⟨2, "green", "off", "green", 169/2, 181/2, 2⟩).viewport_original_start_pct =
      max 0 ((1650/19 : ℚ) - (get_pattern_display_details 80 true (1650/19) 32
        ⟨2, "green", "off", "green", 169/2, 181/2, 2⟩).phase2_view_coverage_pct / 2) ∧
    (get_pattern_display_details 80 true (1650/19) 32
        ⟨2, "green", "off", "green", 169/2, 181/2, 2⟩).viewport_original_start_pct ≤
      (1650/19 : ℚ) ∧
    (1650/19 : ℚ) ≤
      (get_pattern_display_details 80 true (1650/19) 32
        ⟨2, "green", "off", "green", 169/2, 181/2, 2⟩).viewport_original_start_pct +
      (get_pattern_display_details 80 true (1650/19) 32
        ⟨2, "green", "off", "green", 169/2, 181/2, 2⟩).phase2_view_coverage_pct :=
  C2_zoomed_viewport 80 (1650/19) 32 ⟨2, "green", "off", "green", 169/2, 181/2, 2⟩
    (by norm_num) (by norm_num) (by norm_num)

/-- A marker span is either the `(-1, -1)` "not rendered" sentinel or a valid
inclusive in-bounds column range. -/
def spanOk (n : ℕ) (span : ℤ × ℤ) : Prop :=
  span = (-1, -1) ∨ (0 ≤ span.1 ∧ span.1 ≤ span.2 ∧ span.2 ≤ (n : ℤ) - 1)

theorem get_phase2_spanOk (sp tp : ℚ) (n : ℕ) (cpp vs cov : ℚ) (il ir : Bool)
    (cd : Option (ℤ × ℤ)) :
    spanOk n (get_phase2_static_marker_details sp tp n cpp vs cov il ir cd) := by
  rcases cd with _ | ⟨cs, ce⟩ <;>
    simp only [get_phase2_static_marker_details, spanOk] <;>
    split_ifs <;>
    first
      | exact Or.inl rfl
      | exact Or.inr ⟨le_max_left _ _, not_lt.mp (by assumption), min_le_left _ _⟩
      | simp_all

theorem get_phase1_spanOk (t : ℚ) (n pad : ℕ) (lc cc rc' : String) (hn : 0 < n) :
    spanOk n ((get_phase1_pattern_details t n pad lc cc rc').left_display_col_start,
              (get_phase1_pattern_details t n pad lc cc rc').left_display_col_end) ∧
    spanOk n ((get_phase1_pattern_details t n pad lc cc rc').center_display_col_start,
              (get_phase1_pattern_details t n pad lc cc rc').center_display_col_end) ∧
    spanOk n ((get_phase1_pattern_details t n pad lc cc rc').right_display_col_start,
              (get_phase1_pattern_details t n pad lc cc rc').right_display_col_end) := by
  have hn' : n ≠ 0 := hn.ne'
  have hn1 : 1 ≤ (n : ℤ) := by exact_mod_cast hn
  simp only [get_phase1_pattern_details, if_neg hn', spanOk]
  generalize pyTrunc (t / 100 * (n : ℚ)) = k
  split_ifs with h1 h2 <;>
    refine ⟨?_, ?_, ?_⟩ <;>
    simp_all [Prod.mk.injEq] <;>
    omega

/-- C6: for inputs with `total_columns > 0`, each computed marker span (left,
center, right; coarse or zoomed) is either not rendered (both endpoints the
`-1` sentinel) or satisfies `0 ≤ start ≤ end ≤ total_columns − 1`; in
particular any zoomed span whose clipped range has `start > end` comes out as
not rendered. -/
theorem C6_marker_spans_in_bounds (p target : ℚ) (phase2 : Bool) (n : ℕ)
    (cfg : DisplayConfigs) (hn : 0 < n) :
    (spanOk n ((get_pattern_display_details p phase2 target n cfg).left_display_col_start,
               (get_pattern_display_details p phase2 target n cfg).left_display_col_end) ∧
     spanOk n ((get_pattern_display_details p phase2 target n cfg).center_display_col_start,
               (get_pattern_display_details p phase2 target n cfg).center_display_col_end) ∧
     spanOk n ((get_pattern_display_details p phase2 target n cfg).right_display_col_start,
               (get_pattern_display_details p phase2 target n cfg).right_display_col_end)) ∧
    (∀ sp tp cpp vs cov il ir cd,
      spanOk n (get_phase2_static_marker_details sp tp n cpp vs cov il ir cd)) := by
  have hn' : n ≠ 0 := hn.ne'
  refine ⟨?_, fun sp tp cpp vs cov il ir cd => get_phase2_spanOk sp tp n cpp vs cov il ir cd⟩
  cases phase2
  · simpa only [get_pattern_display_details, if_neg hn', Bool.false_eq_true, if_false] using
      get_phase1_spanOk target n cfg.phase1_padding_cols cfg.left_static_color
        cfg.center_static_color cfg.right_static_color hn
  · simp only [get_pattern_display_details, if_neg hn', if_true, Prod.mk.eta]
    exact ⟨get_phase2_spanOk _ _ _ _ _ _ _ _ _,
           get_phase2_spanOk _ _ _ _ _ _ _ _ _,
           get_phase2_spanOk _ _ _ _ _ _ _ _ _⟩

/-- The concrete `pattern_display_configs` dict built in `code.py` `main`. -/
def code_pattern_display_configs : DisplayConfigs :=
  { phase1_padding_cols := 2, left_static_color := "green", center_static_color := "off",
    right_static_color := "green", phase2_left_static_pct := 169/2,
    phase2_right_static_pct := 181/2, phase2_cols_per_one_percent := 2 }

/-- The concrete `render_configs` dict built in `code.py` `main`. -/
def code_render_configs : RenderConfigs :=
  { slider_start_color := "green", slider_end_color_phase1 := "yellow",
    slider_color_change_point_target_pct := 65,
    recolor_between_static_behavior := "use_slider_color",
    slider_color_after_1st_static_zoomed := "red",
    precise_indicator_color := "yellow",
    phase2_allow_slider_overwrite_target := true,
    phase2_show_precise_indicator := true,
    zoom_transition_threshold_percent := 75 }

/-- A concrete `configs` dict for `ParkingGuideDisplay`, using the same
constants as `code.py` together with the class's own `.get` defaults
(`UPPER_RANGE_CM` 190, `TOF_READING_ERROR` −1, marker offset 3, tolerance
0.0001, rounding offset 0.5). -/
def pgd_configs : ClassConfigs :=
  { upper_range_cm := 190, tof_reading_error := -1,
    zoom_transition_threshold_percent := 75,
    left_static_color := "green", center_static_color := "off",
    right_static_color := "green", phase1_padding_cols := 2,
    phase2_cols_per_one_percent := 2, phase2_min_cols_per_one_percent := 1/10,
    phase2_static_marker_offset_pct := 3, float_comparison_tolerance := 1/10000,
    rounding_offset := 1/2, slider_start_color := "green",
    slider_end_color_phase1 := "yellow", slider_color_change_point_target_pct := 65,
    slider_color_after_1st_static_zoomed := "red", precise_indicator_color := "yellow",
    phase2_allow_slider_overwrite_target := true, phase2_show_precise_indicator := true }

/-- Witness for C6 at `p = 80`, zoomed, `target = 1650/19`, `n = 32` and the
`code.py` configuration. -/
theorem C6_marker_spans_in_bounds_witness :
    (spanOk 32 ((get_pattern_display_details 80 true (1650/19) 32
          code_pattern_display_configs).left_display_col_start,
        (get_pattern_display_details 80 true (1650/19) 32
          code_pattern_display_configs).left_display_col_end) ∧
     spanOk 32 ((get_pattern_display_details 80 true (1650/19) 32
          code_pattern_display_configs).center_display_col_start,
        (get_pattern_display_details 80 true (1650/19) 32
          code_pattern_display_configs).center_display_col_end) ∧
     spanOk 32 ((get_pattern_display_details 80 true (1650/19) 32
          code_pattern_display_configs).right_display_col_start,
        (get_pattern_display_details 80 true (1650/19) 32
          code_pattern_display_configs).right_display_col_end)) ∧
    (∀ sp tp cpp vs cov il ir cd,
      spanOk 32 (get_phase2_static_marker_details sp tp 32 cpp vs cov il ir cd)) :=
  C6_marker_spans_in_bounds 80 (1650/19) true 32 code_pattern_display_configs (by norm_num)

/-- Full characterisation of what passing center-marker details to
`_get_phase2_static_marker_details` does for a left/right marker: the result
is the unsuppressed span, nullified exactly when the center span is rendered
and the clipped left/right span overlaps it. -/
theorem get_phase2_some_eq (sp tp : ℚ) (n : ℕ) (cpp vs cov : ℚ) (il ir : Bool)
    (cs ce : ℤ) (h : il = true ∨ ir = true) :
    get_phase2_static_marker_details sp tp n cpp vs cov il ir (some (cs, ce)) =
      (if cs ≠ -1 ∧
          (get_phase2_static_marker_details sp tp n cpp vs cov il ir none).1 ≠ -1 ∧
          (get_phase2_static_marker_details sp tp n cpp vs cov il ir none).1 ≤ ce ∧
          cs ≤ (get_phase2_static_marker_details sp tp n cpp vs cov il ir none).2
       then (-1, -1)
       else get_phase2_static_marker_details sp tp n cpp vs cov il ir none) := by
  simp only [get_phase2_static_marker_details]
  split_ifs <;>
    first
      | rfl
      | (exact absurd h (by assumption))
      | (dsimp only at * ; omega)
      | omega
      | (exfalso ; dsimp only at * ; omega)
      | (exfalso ; omega)
      | (rw [Prod.mk.injEq] ; dsimp only at * ; omega)
      | (rw [Prod.mk.injEq] ; omega)

/-- The center marker's own span computation ignores the `center_details`
argument entirely. -/
theorem get_phase2_center_ignores_details (sp tp : ℚ) (n : ℕ) (cpp vs cov : ℚ)
    (cd : Option (ℤ × ℤ)) :
    get_phase2_static_marker_details sp tp n cpp vs cov false false cd =
      get_phase2_static_marker_details sp tp n cpp vs cov false false none := by
  rcases cd with _ | ⟨cs, ce⟩
  · rfl
  · simp only [get_phase2_static_marker_details]
    split_ifs <;> simp_all

/-- C3: in the zoomed phase a left/right marker whose clipped span overlaps
the already-computed center span is suppressed to `(-1, -1)` (the Python
`None,None` sentinel), the center span itself being computed without any
suppression and left unchanged by the left/right computations; and the left
and right markers are each checked only against the center, never against
each other: each one's span is unchanged when the other marker's configured
percent changes. -/
theorem C3_overlap_suppression (sp tp p t x : ℚ) (n : ℕ) (cpp vs cov : ℚ)
    (il ir : Bool) (cs ce : ℤ) (cfg : DisplayConfigs) (hn : 0 < n)
    (hor : il = true ∨ ir = true) :
    (get_phase2_static_marker_details sp tp n cpp vs cov il ir (some (cs, ce)) =
      (if cs ≠ -1 ∧
          (get_phase2_static_marker_details sp tp n cpp vs cov il ir none).1 ≠ -1 ∧
          (get_phase2_static_marker_details sp tp n cpp vs cov il ir none).1 ≤ ce ∧
          cs ≤ (get_phase2_static_marker_details sp tp n cpp vs cov il ir none).2
       then (-1, -1)
       else get_phase2_static_marker_details sp tp n cpp vs cov il ir none)) ∧
    (get_phase2_static_marker_details sp tp n cpp vs cov false false (some (cs, ce)) =
      get_phase2_static_marker_details sp tp n cpp vs cov false false none) ∧
    (((get_pattern_display_details p true t n cfg).center_display_col_start,
      (get_pattern_display_details p true t n cfg).center_display_col_end) =
        get_phase2_static_marker_details t t n
          (max PHASE2_MIN_COLS_PER_ONE_PERCENT cfg.phase2_cols_per_one_percent)
          (max 0 (t - (n : ℚ) *
            (1 / max PHASE2_MIN_COLS_PER_ONE_PERCENT cfg.phase2_cols_per_one_percent) / 2))
          ((n : ℚ) *
            (1 / max PHASE2_MIN_COLS_PER_ONE_PERCENT cfg.phase2_cols_per_one_percent))
          false false none) ∧
    (((get_pattern_display_details p true t n
          { cfg with phase2_right_static_pct := x }).left_display_col_start,
      (get_pattern_display_details p true t n
          { cfg with phase2_right_static_pct := x }).left_display_col_end) =
      ((get_pattern_display_details p true t n cfg).left_display_col_start,
       (get_pattern_display_details p true t n cfg).left_display_col_end)) ∧
    (((get_pattern_display_details p true t n
          { cfg with phase2_left_static_pct := x }).right_display_col_start,
      (get_pattern_display_details p true t n
          { cfg with phase2_left_static_pct := x }).right_display_col_end) =
      ((get_pattern_display_details p true t n cfg).right_display_col_start,
       (get_pattern_display_details p true t n cfg).right_display_col_end)) := by
  have hn' : n ≠ 0 := hn.ne'
  refine ⟨get_phase2_some_eq sp tp n cpp vs cov il ir cs ce hor,
          get_phase2_center_ignores_details sp tp n cpp vs cov _, ?_, ?_, ?_⟩ <;>
    simp only [get_pattern_display_details, if_neg hn', if_true, Prod.mk.eta]

/-- Witness for C3: with `n = 32`, `cols_per_pct = 2`, viewport `[0, 16)` and
center span `(15, 16)`, a left marker at 8% gets the clipped span `(15, 16)`,
which overlaps the center span, so it is suppressed; and the center-marker
computation ignores the passed details entirely. -/
theorem C3_overlap_suppression_witness :
    get_phase2_static_marker_details 8 50 32 2 0 16 true false (some (15, 16)) =
      (-1, -1) ∧
    get_phase2_static_marker_details 8 50 32 2 0 16 false false (some (15, 16)) =
      get_phase2_static_marker_details 8 50 32 2 0 16 false false none := by
  have h := C3_overlap_suppression 8 50 80 (1650/19) 0 32 2 0 16 true false 15 16
    code_pattern_display_configs (by norm_num) (Or.inl rfl)
  refine ⟨?_, h.2.1⟩
  have e1 : get_phase2_static_marker_details 8 50 32 2 0 16 true false none = (15, 16) := by
    norm_num [get_phase2_static_marker_details, pyTrunc, FLOAT_COMPARISON_TOLERANCE,
      max_def, min_def]
  rw [h.1, e1]
  norm_num

/-- C4 counterexample: at `progress = threshold = 50` (no override active:
the left marker sits at 84.5), the zoomed pre-override color is the end color
`"yellow"` (the zoomed comparison is `progress ≥ threshold`) while the coarse
color is the start color `"green"` (the coarse comparison is
`progress > threshold`), so for equal progress and threshold the pre-override
zoomed color does NOT equal the coarse-phase color. -/
theorem C4_counterexample :
    get_current_progress_color 50 true 50
        (get_pattern_display_details 50 true (1650/19) 32 code_pattern_display_configs)
        code_render_configs = "yellow" ∧
    get_current_progress_color 50 false 50
        (get_pattern_display_details 50 true (1650/19) 32 code_pattern_display_configs)
        code_render_configs = "green" ∧
    ("yellow" : String) ≠ "green" := by
  have hl : (get_pattern_display_details 50 true (1650/19) 32
      code_pattern_display_configs).left_original_pct = 169/2 := by
    norm_num [get_pattern_display_details, code_pattern_display_configs]
  refine ⟨?_, ?_, by decide⟩
  · simp only [get_current_progress_color, hl, code_render_configs]
    norm_num
  · norm_num [get_current_progress_color, code_render_configs]

/-- C4 (amended): in coarse phase the tip color is the start color whenever
`progress ≤ threshold` and the end color whenever `progress > threshold`; in
zoomed phase the pre-override color is the end color when
`progress ≥ threshold` and the start color when `progress < threshold` — a
non-strict comparison where the coarse one is strict — so it equals the
coarse-phase color for every `progress ≠ threshold` (at equality the zoomed
color is the end color while the coarse color is the start color); and when
the left-marker original percent is set (≠ −1) and `progress` exceeds it, the
result is the post-marker override color regardless of the threshold
comparison.  The class variant obeys the same rules. -/
theorem C4_slider_color_policy (p thresh : ℚ) (pd : PatternDetails)
    (rc : RenderConfigs) (ccfg : ClassConfigs) :
    (p ≤ thresh →
      get_current_progress_color p false thresh pd rc = rc.slider_start_color) ∧
    (p > thresh →
      get_current_progress_color p false thresh pd rc = rc.slider_end_color_phase1) ∧
    (¬ (pd.left_original_pct ≠ -1 ∧ p > pd.left_original_pct) →
      get_current_progress_color p true thresh pd rc =
        (if p ≥ thresh then rc.slider_end_color_phase1 else rc.slider_start_color)) ∧
    (p ≠ thresh → ¬ (pd.left_original_pct ≠ -1 ∧ p > pd.left_original_pct) →
      get_current_progress_color p true thresh pd rc =
        get_current_progress_color p false thresh pd rc) ∧
    (pd.left_original_pct ≠ -1 → p > pd.left_original_pct →
      get_current_progress_color p true thresh pd rc =
        rc.slider_color_after_1st_static_zoomed) ∧
    (p ≤ thresh →
      pgd_get_current_progress_color ccfg p false thresh pd = ccfg.slider_start_color) ∧
    (¬ (pd.left_original_pct ≠ -1 ∧ p > pd.left_original_pct) →
      pgd_get_current_progress_color ccfg p true thresh pd =
        (if p ≥ thresh then ccfg.slider_end_color_phase1 else ccfg.slider_start_color)) ∧
    (pd.left_original_pct ≠ -1 → p > pd.left_original_pct →
      pgd_get_current_progress_color ccfg p true thresh pd =
        ccfg.slider_color_after_1st_static_zoomed) := by
  refine ⟨fun h => ?_, fun h => ?_, fun h => ?_, fun hne h => ?_, fun h1 h2 => ?_,
          fun h => ?_, fun h => ?_, fun h1 h2 => ?_⟩
  · simp [get_current_progress_color, not_lt.mpr h]
  · simp [get_current_progress_color, h]
  · simp [get_current_progress_color, h]
  · rcases lt_or_gt_of_ne hne with hlt | hgt
    · simp [get_current_progress_color, h, not_le.mpr hlt, not_lt.mpr (le_of_lt hlt)]
    · simp [get_current_progress_color, h, le_of_lt hgt, hgt]
  · simp [get_current_progress_color, h1, h2]
  · simp [pgd_get_current_progress_color, not_lt.mpr h]
  · simp [pgd_get_current_progress_color, h]
  · simp [pgd_get_current_progress_color, h1, h2]

/-- Witness for C4 (amended) at `p = 40` / `p = 90`, `thresh = 50`, the
pattern computed by `code.py` at target `1650/19` (left marker percent 84.5)
and the concrete configurations of the sources. -/
theorem C4_slider_color_policy_witness :
    get_current_progress_color 40 false 50
        (get_pattern_display_details 50 true (1650/19) 32 code_pattern_display_configs)
        code_render_configs = code_render_configs.slider_start_color ∧
    get_current_progress_color 40 true 50
        (get_pattern_display_details 50 true (1650/19) 32 code_pattern_display_configs)
        code_render_configs =
      (if (40 : ℚ) ≥ 50 then code_render_configs.slider_end_color_phase1
       else code_render_configs.slider_start_color) ∧
    get_current_progress_color 90 true 50
        (get_pattern_display_details 50 true (1650/19) 32 code_pattern_display_configs)
        code_render_configs = code_render_configs.slider_color_after_1st_static_zoomed ∧
    pgd_get_current_progress_color pgd_configs 40 false 50
        (get_pattern_display_details 50 true (1650/19) 32 code_pattern_display_configs) =
      pgd_configs.slider_start_color := by
  have hl : (get_pattern_display_details 50 true (1650/19) 32
      code_pattern_display_configs).left_original_pct = 169/2 := by
    norm_num [get_pattern_display_details, code_pattern_display_configs]
  have h40 := C4_slider_color_policy 40 50
    (get_pattern_display_details 50 true (1650/19) 32 code_pattern_display_configs)
    code_render_configs pgd_configs
  have h90 := C4_slider_color_policy 90 50
    (get_pattern_display_details 50 true (1650/19) 32 code_pattern_display_configs)
    code_render_configs pgd_configs
  exact ⟨h40.1 (by norm_num),
         h40.2.2.1 (by rw [hl]; norm_num),
         h90.2.2.2.2.1 (by rw [hl]; norm_num) (by rw [hl]; norm_num),
         h40.2.2.2.2.2.1 (by norm_num)⟩

/-- C8: whenever the computed progress is an error sentinel (negative reading,
reading above range — which covers all four sentinel codes −1, −2, −3, −4 —)
the tick writes the fixed alert color blue `(0,0,255)` to the NeoPixel
indicator instead of a slider color; the class variant's NeoPixel update does
the same on its error flag.  The embedded tick is a total function, so no
exception escapes the loop. -/
theorem C8_error_sentinel_blue (reading R targetPct : ℚ) (n : ℕ)
    (dc : DisplayConfigs) (rc : RenderConfigs) (ccfg : ClassConfigs)
    (p t : ℚ) (ph : Bool) (pd : PatternDetails)
    (hn : n ≠ 0) (herr : reading < 0 ∨ reading > R) :
    (∃ frame, main_tick reading R targetPct n dc rc = some ((0, 0, 255), frame)) ∧
    pgd_update_neopixel_strips ccfg p ph true pd t = (0, 0, 255) := by
  have hprog : (if reading > TOF_READING_ERROR then
      calculate_current_tof_percentage reading R else TOF_READING_ERROR) =
      TOF_READING_ERROR := by
    split_ifs with h
    · rcases herr with h1 | h1
      · simp [calculate_current_tof_percentage, h1]
      · by_cases h2 : reading < 0 <;> simp [calculate_current_tof_percentage, h1, h2]
    · rfl
  constructor
  · simp only [main_tick, hprog, if_neg hn]
    norm_num [TOF_READING_ERROR]
    simp [neopixelColor]
  · simp [pgd_update_neopixel_strips, neopixelColor]

/-- Witness for C8 at `reading = -4` (sensor-not-initialized sentinel),
`R = 190`, `n = 32` and the concrete `code.py` configuration. -/
theorem C8_error_sentinel_blue_witness :
    (∃ frame, main_tick (-4) 190 (1650/19) 32 code_pattern_display_configs
        code_render_configs = some ((0, 0, 255), frame)) ∧
    pgd_update_neopixel_strips pgd_configs 0 false true
      (get_pattern_display_details 0 false (1650/19) 32 code_pattern_display_configs)
      (1650/19) = (0, 0, 255) :=
  C8_error_sentinel_blue (-4) 190 (1650/19) 32 code_pattern_display_configs
    code_render_configs pgd_configs 0 (1650/19) false
    (get_pattern_display_details 0 false (1650/19) 32 code_pattern_display_configs)
    (by norm_num) (Or.inl (by norm_num))

/-- C10: `ParkingGuideDisplay.update` with `current_distance_cm = None` never
raises (the embedding is a total function): the reading is coerced to the
`-1.0` sentinel, the error path sets the indicator to the alert color blue,
and the display pattern is computed with effective progress `0.0` in coarse
phase. -/
theorem C10_update_none (cfg : ClassConfigs) (n : ℕ) (tgt : Option ℚ)
    (herr : cfg.tof_reading_error = -1)
    (hz : 0 < cfg.zoom_transition_threshold_percent) :
    (pgd_update cfg n none tgt).indicator_rgb = (0, 0, 255) ∧
    (pgd_update cfg n none tgt).effective_progress = 0 ∧
    (pgd_update cfg n none tgt).is_phase2_active = false ∧
    (pgd_update cfg n none tgt).pattern =
      pgd_get_pattern_display_details cfg n 0 false
        (pgd_calculate_derived_target_percentage tgt cfg.upper_range_cm) := by
  have hcur : pgd_calculate_current_tof_percentage cfg.tof_reading_error
      cfg.tof_reading_error cfg.upper_range_cm = cfg.tof_reading_error := by
    rw [herr]
    norm_num [pgd_calculate_current_tof_percentage]
  have hph : ¬ ((0 : ℚ) ≥ cfg.zoom_transition_threshold_percent) := not_le.mpr hz
  simp only [pgd_update, hcur, le_refl, if_pos, if_true, pgd_update_neopixel_strips,
    hph, decide_eq_false hph]
  refine ⟨?_, ?_, ?_, ?_⟩ <;> first | rfl | trivial | simp [neopixelColor]

/-- Witness for C10 at the concrete default class configuration, `n = 32`,
target distance 25 cm. -/
theorem C10_update_none_witness :
    (pgd_update pgd_configs 32 none (some 25)).indicator_rgb = (0, 0, 255) ∧
    (pgd_update pgd_configs 32 none (some 25)).effective_progress = 0 ∧
    (pgd_update pgd_configs 32 none (some 25)).is_phase2_active = false ∧
    (pgd_update pgd_configs 32 none (some 25)).pattern =
      pgd_get_pattern_display_details pgd_configs 32 0 false
        (pgd_calculate_derived_target_percentage (some 25) pgd_configs.upper_range_cm) :=
  C10_update_none pgd_configs 32 (some 25) (by norm_num [pgd_configs])
    (by norm_num [pgd_configs])

theorem writeCols_length (k : ℕ) (prev frame : List String) :
    (writeCols k prev frame).length = prev.length := by
  induction k with
  | zero => rfl
  | succ k ih => simp [writeCols, ih]

theorem writeCols_getElem (k : ℕ) (prev frame : List String) (j : ℕ) :
    (writeCols k prev frame)[j]? =
      if j < k ∧ j < prev.length then some (frame.getD j "off") else prev[j]? := by
  induction k with
  | zero => simp [writeCols]
  | succ k ih =>
    simp only [writeCols, List.getElem?_set, writeCols_length, ih]
    by_cases hkj : k = j
    · subst hkj
      by_cases hk : k < prev.length <;> simp [hk] <;> omega
    · by_cases hj : j < k
      · simp [hkj, hj, Nat.lt_succ_of_lt hj]
      · have : ¬ j < k + 1 := by omega
        simp [hkj, hj, this]

/-- Flushing a frame overwrites the sink completely: the previous contents do
not matter as long as the sink has the display's width. -/
theorem flushFrameToSink_eq (prev frame : List String)
    (h : prev.length = frame.length) :
    flushFrameToSink prev frame = frame := by
  apply List.ext_getElem?
  intro j
  rw [flushFrameToSink, writeCols_getElem]
  by_cases hj : j < frame.length
  · rw [if_pos ⟨hj, h ▸ hj⟩, List.getD_eq_getElem?_getD, List.getElem?_eq_getElem hj]
    rfl
  · rw [if_neg (by omega), List.getElem?_eq_none (by omega),
      List.getElem?_eq_none (by omega)]

theorem apply_marker_length (a b : Bool) (fr : List String) (nm : String)
    (s e : ℤ) (c : String) : (apply_marker a b fr nm s e c).length = fr.length := by
  unfold apply_marker
  split_ifs <;> simp

theorem pgd_apply_marker_length (a b : Bool) (fr : List String) (nm : String)
    (s e : ℤ) (c : String) : (pgd_apply_marker a b fr nm s e c).length = fr.length := by
  unfold pgd_apply_marker
  split_ifs <;> simp

/-- The frame computed by `render_display` always has exactly one color per
display column. -/
theorem render_display_length (p t : ℚ) (n : ℕ) (pd : PatternDetails)
    (rc : RenderConfigs) : (render_display p t n pd rc).length = n := by
  simp only [render_display]
  split_ifs with h <;>
    simp [h, apply_marker_length, List.length_set, List.length_mapIdx]

theorem pgd_render_matrix_display_length (ccfg : ClassConfigs) (n : ℕ) (p t : ℚ)
    (pd : PatternDetails) : (pgd_render_matrix_display ccfg n p t pd).length = n := by
  simp only [pgd_render_matrix_display]
  split_ifs with h <;>
    simp [h, pgd_apply_marker_length, List.length_set, List.length_mapIdx]

/-- C9: rendering is deterministic and stateless — flushing the frame computed
from given arguments over any previous sink contents (of the display's width)
yields the same sink state, namely the frame itself, for both script
variants; the output depends only on the arguments. -/
theorem C9_render_deterministic (p t : ℚ) (n : ℕ) (pd : PatternDetails)
    (rc : RenderConfigs) (ccfg : ClassConfigs) (prev₁ prev₂ : List String)
    (h₁ : prev₁.length = n) (h₂ : prev₂.length = n) :
    flushFrameToSink prev₁ (render_display p t n pd rc) =
      flushFrameToSink prev₂ (render_display p t n pd rc) ∧
    flushFrameToSink prev₁ (render_display p t n pd rc) =
      render_display p t n pd rc ∧
    flushFrameToSink prev₁ (pgd_render_matrix_display ccfg n p t pd) =
      flushFrameToSink prev₂ (pgd_render_matrix_display ccfg n p t pd) ∧
    flushFrameToSink prev₁ (pgd_render_matrix_display ccfg n p t pd) =
      pgd_render_matrix_display ccfg n p t pd := by
  have hr : (render_display p t n pd rc).length = n := render_display_length p t n pd rc
  have hc : (pgd_render_matrix_display ccfg n p t pd).length = n :=
    pgd_render_matrix_display_length ccfg n p t pd
  have e₁ := flushFrameToSink_eq prev₁ (render_display p t n pd rc) (by omega)
  have e₂ := flushFrameToSink_eq prev₂ (render_display p t n pd rc) (by omega)
  have e₃ := flushFrameToSink_eq prev₁ (pgd_render_matrix_display ccfg n p t pd) (by omega)
  have e₄ := flushFrameToSink_eq prev₂ (pgd_render_matrix_display ccfg n p t pd) (by omega)
  exact ⟨e₁.trans e₂.symm, e₁, e₃.trans e₄.symm, e₃⟩

/-- Witness for C9 at two different previous sink states of width 2 and a
concrete render call. -/
theorem C9_render_deterministic_witness :
    flushFrameToSink ["red", "red"]
        (render_display 50 50 2 (get_pattern_display_details 50 false 50 2
          code_pattern_display_configs) code_render_configs) =
      flushFrameToSink ["off", "yellow"]
        (render_display 50 50 2 (get_pattern_display_details 50 false 50 2
          code_pattern_display_configs) code_render_configs) ∧
    flushFrameToSink ["red", "red"]
        (render_display 50 50 2 (get_pattern_display_details 50 false 50 2
          code_pattern_display_configs) code_render_configs) =
      render_display 50 50 2 (get_pattern_display_details 50 false 50 2
        code_pattern_display_configs) code_render_configs ∧
    flushFrameToSink ["red", "red"]
        (pgd_render_matrix_display pgd_configs 2 50 50
          (get_pattern_display_details 50 false 50 2 code_pattern_display_configs)) =
      flushFrameToSink ["off", "yellow"]
        (pgd_render_matrix_display pgd_configs 2 50 50
          (get_pattern_display_details 50 false 50 2 code_pattern_display_configs)) ∧
    flushFrameToSink ["red", "red"]
        (pgd_render_matrix_display pgd_configs 2 50 50
          (get_pattern_display_details 50 false 50 2 code_pattern_display_configs)) =
      pgd_render_matrix_display pgd_configs 2 50 50
        (get_pattern_display_details 50 false 50 2 code_pattern_display_configs) :=
  C9_render_deterministic 50 50 2
    (get_pattern_display_details 50 false 50 2 code_pattern_display_configs)
    code_render_configs pgd_configs ["red", "red"] ["off", "yellow"] rfl rfl

theorem mapIdx_id_of (l : List String) (f : ℕ → String → String)
    (hf : ∀ i c, f i c = c) : l.mapIdx f = l := by
  apply List.ext_getElem
  · simp
  · intro i h1 h2
    simp [hf]

/-- The two marker-application passes agree on every input: they differ only
in the `end_col != -1` guard, and a span with `end_col < 0` colors no column
anyway (column indices are naturals). -/
theorem apply_marker_eq (a b : Bool) (fr : List String) (nm : String) (s e : ℤ)
    (c : String) : apply_marker a b fr nm s e c = pgd_apply_marker a b fr nm s e c := by
  unfold apply_marker pgd_apply_marker
  by_cases hs : s = -1
  · simp [hs]
  · by_cases he : e = -1
    · rw [if_neg (by tauto), if_pos hs, Eq.comm]
      apply mapIdx_id_of
      intro i col
      rw [if_neg]
      rw [he]
      rintro ⟨-, h2⟩
      omega
    · rw [if_pos ⟨hs, he⟩, if_pos hs]

theorem pgd_thresh_eq (ccfg : ClassConfigs) (rc : RenderConfigs)
    (hchg : rc.slider_color_change_point_target_pct =
      ccfg.slider_color_change_point_target_pct) (c t : ℚ) :
    pgd_calculate_phase1_slider_color_change_threshold ccfg c t =
      calculate_phase1_slider_color_change_threshold_original_pct c
        rc.slider_color_change_point_target_pct t := by
  simp [pgd_calculate_phase1_slider_color_change_threshold,
    calculate_phase1_slider_color_change_threshold_original_pct, hchg]

theorem pgd_fill_color_eq (ccfg : ClassConfigs) (rc : RenderConfigs)
    (hstart : rc.slider_start_color = ccfg.slider_start_color)
    (hend : rc.slider_end_color_phase1 = ccfg.slider_end_color_phase1)
    (p cs thr : ℚ) (pd : PatternDetails) :
    determine_slider_fill_color p cs false thr pd rc =
      pgd_get_slider_fill_color ccfg p cs false thr pd := by
  simp [determine_slider_fill_color, pgd_get_slider_fill_color, hstart, hend]

/-- The two phase-2 marker helpers agree whenever the class configuration
carries the module constants of `code.py` for tolerance and rounding. -/
theorem pgd_helper_eq_code (cfg : ClassConfigs)
    (htol : cfg.float_comparison_tolerance = FLOAT_COMPARISON_TOLERANCE)
    (hro : cfg.rounding_offset = ROUNDING_OFFSET)
    (n : ℕ) (sp tp cpp vs cov : ℚ) (il ir : Bool) (cd : Option (ℤ × ℤ)) :
    pgd_get_phase2_static_marker_details cfg n sp tp cpp vs cov il ir cd =
      get_phase2_static_marker_details sp tp n cpp vs cov il ir cd := by
  rcases cd with _ | ⟨cs, ce⟩ <;>
    simp only [pgd_get_phase2_static_marker_details, get_phase2_static_marker_details,
      htol, hro, ge_iff_le]
  all_goals first
    | rfl
    | (split_ifs <;> first | rfl | tauto)

/-- Coarse-phase pattern details agree between the two variants whenever the
shared configuration fields agree. -/
theorem pattern_coarse_eq (p t : ℚ) (n : ℕ) (dc : DisplayConfigs) (ccfg : ClassConfigs)
    (hpad : dc.phase1_padding_cols = ccfg.phase1_padding_cols)
    (hlc : dc.left_static_color = ccfg.left_static_color)
    (hcc : dc.center_static_color = ccfg.center_static_color)
    (hrcol : dc.right_static_color = ccfg.right_static_color) :
    get_pattern_display_details p false t n dc =
      pgd_get_pattern_display_details ccfg n p false t := by
  by_cases hn : n = 0 <;>
    simp only [get_pattern_display_details, pgd_get_pattern_display_details,
      get_phase1_pattern_details, hpad, hlc, hcc, hrcol, hn, Bool.false_eq_true,
      if_false, ite_true, ite_false, not_false_iff]

/-- Zoomed-phase pattern details agree between the two variants exactly when
the configured static percentages equal `target ∓ offset` (and the class
configuration carries the module constants for the minimum density, the
tolerance and the rounding offset). -/
theorem pattern_zoom_eq (p t : ℚ) (n : ℕ) (dc : DisplayConfigs) (ccfg : ClassConfigs)
    (hlc : dc.left_static_color = ccfg.left_static_color)
    (hcc : dc.center_static_color = ccfg.center_static_color)
    (hrcol : dc.right_static_color = ccfg.right_static_color)
    (hcpp : dc.phase2_cols_per_one_percent = ccfg.phase2_cols_per_one_percent)
    (hmin : ccfg.phase2_min_cols_per_one_percent = PHASE2_MIN_COLS_PER_ONE_PERCENT)
    (htol : ccfg.float_comparison_tolerance = FLOAT_COMPARISON_TOLERANCE)
    (hro : ccfg.rounding_offset = ROUNDING_OFFSET)
    (hleft : dc.phase2_left_static_pct = t - ccfg.phase2_static_marker_offset_pct)
    (hright : dc.phase2_right_static_pct = t + ccfg.phase2_static_marker_offset_pct) :
    get_pattern_display_details p true t n dc =
      pgd_get_pattern_display_details ccfg n p true t := by
  simp only [get_pattern_display_details, pgd_get_pattern_display_details,
    pgd_helper_eq_code ccfg htol hro, hmin, hcpp, hlc, hcc, hrcol, hleft, hright,
    ite_true, if_true]

/-- With the zoomed flag off, the overwrite flag of a marker pass is
irrelevant. -/
theorem pgd_apply_marker_false (b b' : Bool) (fr : List String) (nm : String)
    (s e : ℤ) (c : String) :
    pgd_apply_marker false b fr nm s e c = pgd_apply_marker false b' fr nm s e c := by
  simp [pgd_apply_marker]

/-- In the coarse phase (progress below the zoom threshold) the two render
routines produce the same frame from the same pattern details, provided the
shared color configuration agrees and `code.py`'s recolor-between-statics
option is at its default. -/
theorem render_coarse_eq (p t : ℚ) (n : ℕ) (pd : PatternDetails)
    (rc : RenderConfigs) (ccfg : ClassConfigs)
    (hz : rc.zoom_transition_threshold_percent = ccfg.zoom_transition_threshold_percent)
    (hp : ¬ (p ≥ rc.zoom_transition_threshold_percent))
    (hrec : rc.recolor_between_static_behavior = "use_slider_color")
    (hstart : rc.slider_start_color = ccfg.slider_start_color)
    (hend : rc.slider_end_color_phase1 = ccfg.slider_end_color_phase1)
    (hchg : rc.slider_color_change_point_target_pct =
      ccfg.slider_color_change_point_target_pct) :
    render_display p t n pd rc = pgd_render_matrix_display ccfg n p t pd := by
  have hp' : ¬ (p ≥ ccfg.zoom_transition_threshold_percent) := hz ▸ hp
  by_cases hn : n = 0
  · simp [render_display, pgd_render_matrix_display, hn]
  · simp only [render_display, pgd_render_matrix_display, if_neg hn, hz, hp',
      apply_marker_eq, pgd_thresh_eq ccfg rc hchg, decide_False,
      pgd_fill_color_eq ccfg rc hstart hend, hrec,
      iff_false, eq_self_iff_true, if_true, ite_false, ite_true, false_and, and_false,
      if_false, decide_eq_false hp', Bool.false_eq_true, ne_eq, not_true, not_false_iff,
      false_or, or_false]
    rw [pgd_apply_marker_false rc.phase2_allow_slider_overwrite_target
        ccfg.phase2_allow_slider_overwrite_target,
      pgd_apply_marker_false rc.phase2_allow_slider_overwrite_target
        ccfg.phase2_allow_slider_overwrite_target,
      pgd_apply_marker_false rc.phase2_allow_slider_overwrite_target
        ccfg.phase2_allow_slider_overwrite_target]

/-- C5 counterexample: with each file's own shipped configuration the two
variants do NOT produce identical PatternDetails (code.py uses the fixed
static percentages 84.5/90.5, the class derives target ∓ 3), and even on
identical pattern details the zoomed render routines produce different frames
(at the viewport edge code.py clamps the precise-indicator column into range
while the class drops it). -/
theorem C5_counterexample :
    get_pattern_display_details 80 true (1650/19) 32 code_pattern_display_configs ≠
      pgd_get_pattern_display_details pgd_configs 32 80 true (1650/19) ∧
    render_display 88 (175/2) 2
        (get_pattern_display_details 88 true (175/2) 2 code_pattern_display_configs)
        code_render_configs ≠
      pgd_render_matrix_display pgd_configs 2 88 (175/2)
        (get_pattern_display_details 88 true (175/2) 2 code_pattern_display_configs) := by
  constructor
  · intro h
    have h2 := congrArg PatternDetails.left_original_pct h
    have e1 : (get_pattern_display_details 80 true (1650/19) 32
        code_pattern_display_configs).left_original_pct = 169/2 := by
      norm_num [get_pattern_display_details, code_pattern_display_configs]
    have e2 : (pgd_get_pattern_display_details pgd_configs 32 80 true
        (1650/19)).left_original_pct = 1650/19 - 3 := by
      norm_num [pgd_get_pattern_display_details, pgd_configs]
    rw [e1, e2] at h2
    norm_num at h2
  · have hpd : get_pattern_display_details 88 true (175/2) 2
        code_pattern_display_configs =
        { left_display_col_start := -1, left_display_col_end := -1,
          left_color := "green",
          center_display_col_start := 0, center_display_col_end := 1,
          center_color := "off",
          right_display_col_start := -1, right_display_col_end := -1,
          right_color := "green",
          left_original_pct := 169/2, center_original_pct := 175/2,
          right_original_pct := 181/2,
          viewport_original_start_pct := 87, original_pct_per_display_col := 1/2,
          phase2_view_coverage_pct := 1 } := by
      norm_num [get_pattern_display_details, get_phase2_static_marker_details,
        code_pattern_display_configs, pyTrunc, FLOAT_COMPARISON_TOLERANCE,
        ROUNDING_OFFSET, PHASE2_MIN_COLS_PER_ONE_PERCENT, max_def, min_def]
    rw [hpd]
    have hr2 : List.range 2 = [0, 1] := rfl
    have hA : render_display 88 (175/2) 2
        { left_display_col_start := -1, left_display_col_end := -1,
          left_color := "green",
          center_display_col_start := 0, center_display_col_end := 1,
          center_color := "off",
          right_display_col_start := -1, right_display_col_end := -1,
          right_color := "green",
          left_original_pct := 169/2, center_original_pct := 175/2,
          right_original_pct := 181/2,
          viewport_original_start_pct := 87, original_pct_per_display_col := 1/2,
          phase2_view_coverage_pct := 1 } code_render_configs = ["red", "yellow"] := by
      norm_num [render_display, apply_marker, determine_slider_fill_color,
        get_current_progress_color,
        calculate_phase1_slider_color_change_threshold_original_pct,
        code_render_configs, pyTrunc, FLOAT_COMPARISON_TOLERANCE, max_def, min_def,
        hr2, List.mapIdx_cons, List.mapIdx_nil]
      exact fun h => h.symm
    have hB : pgd_render_matrix_display pgd_configs 2 88 (175/2)
        { left_display_col_start := -1, left_display_col_end := -1,
          left_color := "green",
          center_display_col_start := 0, center_display_col_end := 1,
          center_color := "off",
          right_display_col_start := -1, right_display_col_end := -1,
          right_color := "green",
          left_original_pct := 169/2, center_original_pct := 175/2,
          right_original_pct := 181/2,
          viewport_original_start_pct := 87, original_pct_per_display_col := 1/2,
          phase2_view_coverage_pct := 1 } = ["red", "red"] := by
      norm_num [pgd_render_matrix_display, pgd_apply_marker, pgd_get_slider_fill_color,
        pgd_get_current_progress_color,
        pgd_calculate_phase1_slider_color_change_threshold,
        pgd_configs, pyTrunc, max_def, min_def,
        hr2, List.mapIdx_cons, List.mapIdx_nil]
      exact fun h => h.symm
    rw [hA, hB]
    decide

/-- C5 (amended): the two script variants implement one contract on the
pattern computation — identical PatternDetails in the coarse phase whenever
the shared configuration fields agree, and in the zoomed phase exactly when
the configured static percentages equal `target ∓ offset` — and their render
routines produce identical column-color frames in the coarse phase (with
`code.py`'s recolor-between-statics option at its default); the zoomed frames
are not identical in general (see the counterexample). -/
theorem C5_variant_contract (p t : ℚ) (n : ℕ) (dc : DisplayConfigs)
    (rc : RenderConfigs) (ccfg : ClassConfigs)
    (hpad : dc.phase1_padding_cols = ccfg.phase1_padding_cols)
    (hlc : dc.left_static_color = ccfg.left_static_color)
    (hcc : dc.center_static_color = ccfg.center_static_color)
    (hrcol : dc.right_static_color = ccfg.right_static_color)
    (hcpp : dc.phase2_cols_per_one_percent = ccfg.phase2_cols_per_one_percent)
    (hmin : ccfg.phase2_min_cols_per_one_percent = PHASE2_MIN_COLS_PER_ONE_PERCENT)
    (htol : ccfg.float_comparison_tolerance = FLOAT_COMPARISON_TOLERANCE)
    (hro : ccfg.rounding_offset = ROUNDING_OFFSET)
    (hleft : dc.phase2_left_static_pct = t - ccfg.phase2_static_marker_offset_pct)
    (hright : dc.phase2_right_static_pct = t + ccfg.phase2_static_marker_offset_pct)
    (hz : rc.zoom_transition_threshold_percent = ccfg.zoom_transition_threshold_percent)
    (hp : ¬ (p ≥ rc.zoom_transition_threshold_percent))
    (hrec : rc.recolor_between_static_behavior = "use_slider_color")
    (hstart : rc.slider_start_color = ccfg.slider_start_color)
    (hend : rc.slider_end_color_phase1 = ccfg.slider_end_color_phase1)
    (hchg : rc.slider_color_change_point_target_pct =
      ccfg.slider_color_change_point_target_pct) :
    get_pattern_display_details p false t n dc =
      pgd_get_pattern_display_details ccfg n p false t ∧
    get_pattern_display_details p true t n dc =
      pgd_get_pattern_display_details ccfg n p true t ∧
    render_display p t n (get_pattern_display_details p false t n dc) rc =
      pgd_render_matrix_display ccfg n p t
        (pgd_get_pattern_display_details ccfg n p false t) := by
  have h1 := pattern_coarse_eq p t n dc ccfg hpad hlc hcc hrcol
  refine ⟨h1,
    pattern_zoom_eq p t n dc ccfg hlc hcc hrcol hcpp hmin htol hro hleft hright, ?_⟩
  rw [← h1]
  exact render_coarse_eq p t n _ rc ccfg hz hp hrec hstart hend hchg

/-- Witness for C5 (amended) at `p = 50`, `target = 175/2`, `n = 32`, the
`code.py` configuration and the aligned class configuration (target 87.5 makes
84.5/90.5 equal target ∓ 3). -/
theorem C5_variant_contract_witness :
    get_pattern_display_details 50 false (175/2) 32 code_pattern_display_configs =
      pgd_get_pattern_display_details pgd_configs 32 50 false (175/2) ∧
    get_pattern_display_details 50 true (175/2) 32 code_pattern_display_configs =
      pgd_get_pattern_display_details pgd_configs 32 50 true (175/2) ∧
    render_display 50 (175/2) 32
        (get_pattern_display_details 50 false (175/2) 32 code_pattern_display_configs)
        code_render_configs =
      pgd_render_matrix_display pgd_configs 32 50 (175/2)
        (pgd_get_pattern_display_details pgd_configs 32 50 false (175/2)) :=
  C5_variant_contract 50 (175/2) 32 code_pattern_display_configs code_render_configs
    pgd_configs rfl rfl rfl rfl rfl rfl rfl rfl (by norm_num [code_pattern_display_configs,
      pgd_configs]) (by norm_num [code_pattern_display_configs, pgd_configs]) rfl
    (by norm_num [code_render_configs]) rfl rfl rfl rfl

end ParkingGuide
